import Mathlib

/-!
# Verification of the CSS selector builder in `src/05-objects-tasks.js`

Shallow embedding of the `CssSelectorBuilder` class and its methods.
The JS class has string fields `elementType`, `idName`, `pseudoElem`,
`combinator`, list fields `classNames`, `attributes`, `pseudoClasses`,
and two nullable selector fields `selector1`, `selector2`.  A single
instance `cssSelectorBuilder = new CssSelectorBuilder()` is exported and
shared by every caller; each method mutates the instance and returns it,
which we model by explicit state passing: each method is a function from
the state (and the string argument) to the new state.
-/

/-- The state of a `CssSelectorBuilder` instance.  `selector1` and
`selector2` are nullable references to other builder instances in the JS
class, hence the nested `Option`, making this a nested inductive type. -/
inductive CssB where
  | mk (elementType : String) (idName : String)
       (classNames : List String) (attributes : List String)
       (pseudoClasses : List String) (pseudoElem : String)
       (selector1 : Option CssB) (selector2 : Option CssB)
       (combinator : String) : CssB

namespace CssB

def elementType : CssB → String
  | .mk et _ _ _ _ _ _ _ _ => et

def idName : CssB → String
  | .mk _ idn _ _ _ _ _ _ _ => idn

def classNames : CssB → List String
  | .mk _ _ cls _ _ _ _ _ _ => cls

def attributes : CssB → List String
  | .mk _ _ _ ats _ _ _ _ _ => ats

def pseudoClasses : CssB → List String
  | .mk _ _ _ _ pcs _ _ _ _ => pcs

def pseudoElem : CssB → String
  | .mk _ _ _ _ _ pe _ _ _ => pe

def selector1 : CssB → Option CssB
  | .mk _ _ _ _ _ _ s1 _ _ => s1

def selector2 : CssB → Option CssB
  | .mk _ _ _ _ _ _ _ s2 _ => s2

def combinator : CssB → String
  | .mk _ _ _ _ _ _ _ _ cb => cb

/-- The state produced by `constructor()`: all string fields are `''`
(empty), all array fields `[]`, and `selector1`/`selector2` are `null`.
`clean()` restores exactly this state. -/
def initB : CssB := .mk "" "" [] [] [] "" none none ""

/-- `clean()`: resets every field to its constructor value. -/
def clean : CssB → CssB
  | .mk _ _ _ _ _ _ _ _ _ => initB

/-- `element(value)`: sets `elementType` only when it is still falsy
(the empty string); otherwise the call is silently ignored.
JS: `if (!this.elementType) { this.elementType = value; } return this;` -/
def element : CssB → String → CssB
  | .mk et idn cls ats pcs pe s1 s2 cb, v =>
    if et = "" then .mk v idn cls ats pcs pe s1 s2 cb
    else .mk et idn cls ats pcs pe s1 s2 cb

/-- `id(value)`: unconditionally overwrites `idName`.
JS: `this.idName = value; return this;` -/
def id : CssB → String → CssB
  | .mk et _ cls ats pcs pe s1 s2 cb, v => .mk et v cls ats pcs pe s1 s2 cb

/-- `class(value)`: appends to `classNames`.
JS: `this.classNames = [...this.classNames, value]; return this;` -/
def class_ : CssB → String → CssB
  | .mk et idn cls ats pcs pe s1 s2 cb, v => .mk et idn (cls ++ [v]) ats pcs pe s1 s2 cb

/-- `attr(value)`: appends to `attributes`.
JS: `this.attributes = [...this.attributes, value]; return this;` -/
def attr : CssB → String → CssB
  | .mk et idn cls ats pcs pe s1 s2 cb, v => .mk et idn cls (ats ++ [v]) pcs pe s1 s2 cb

/-- `pseudoClass(value)`: appends to `pseudoClasses`.
JS: `this.pseudoClasses = [...this.pseudoClasses, value]; return this;` -/
def pseudoClass : CssB → String → CssB
  | .mk et idn cls ats pcs pe s1 s2 cb, v => .mk et idn cls ats (pcs ++ [v]) pe s1 s2 cb

/-- `pseudoElement(value)`: unconditionally overwrites `pseudoElem`.
JS: `this.pseudoElem = value; return this;` -/
def pseudoElement : CssB → String → CssB
  | .mk et idn cls ats pcs _ s1 s2 cb, v => .mk et idn cls ats pcs v s1 s2 cb

/-- `combine(combinator)`: the method takes a single parameter and merely
stores it in the `combinator` field.  It never assigns `selector1` or
`selector2`.  JS: `this.combinator = combinator; return this;` -/
def combine : CssB → String → CssB
  | .mk et idn cls ats pcs pe s1 s2 _, c => .mk et idn cls ats pcs pe s1 s2 c

/-- JS `Array.prototype.join(sep)`. -/
def jsJoin (sep : String) : List String → String
  | [] => ""
  | [a] => a
  | a :: b :: l => a ++ sep ++ jsJoin sep (b :: l)

/-- The simple-selector branch of `stringify()`: the sequence of
`result +=` statements guarded by truthiness tests.  An empty string or
an empty array is falsy in JS, so each guard compares with `""` / `[]`. -/
def simpleRender (et idn : String) (cls ats pcs : List String) (pe : String) : String :=
  (if et = "" then "" else et) ++
  (if idn = "" then "" else "#" ++ idn) ++
  (if cls = [] then "" else "." ++ jsJoin "." cls) ++
  (if ats = [] then "" else "[" ++ jsJoin "" ats ++ "]") ++
  (if pcs = [] then "" else ":" ++ jsJoin ":" pcs) ++
  (if pe = "" then "" else "::" ++ pe)

/-- `stringify()`: when `selector1` is truthy the method recursively
stringifies `selector1`, appends `` ` ${this.combinator} ` `` and the
result of `this.selector2.stringify()` (which throws a `TypeError` if
`selector2` is `null`, modelled by `none`); otherwise it renders the
simple-selector fields.  In both branches it then calls `this.clean()`,
so the state after a successful call is always `initB`.  The result is
the pair (returned string, state of the instance after the call). -/
def stringify : CssB → Option (String × CssB)
  | .mk et idn cls ats pcs pe (some b1) (some b2) cb =>
    match stringify b1 with
    | none => none
    | some (r1, _) =>
      match stringify b2 with
      | none => none
      | some (r2, _) =>
        some (r1 ++ " " ++ cb ++ " " ++ r2,
          clean (.mk et idn cls ats pcs pe (some b1) (some b2) cb))
  | .mk _ _ _ _ _ _ (some b1) none _ =>
    match stringify b1 with
    | none => none
    | some _ => none
  | .mk et idn cls ats pcs pe none s2 cb =>
    some (simpleRender et idn cls ats pcs pe, clean (.mk et idn cls ats pcs pe none s2 cb))

/-- A call against the shared `cssSelectorBuilder` instance: which method
is invoked and with which string argument. -/
inductive Op where
  | elementOp (v : String)
  | idOp (v : String)
  | classOp (v : String)
  | attrOp (v : String)
  | pseudoClassOp (v : String)
  | pseudoElementOp (v : String)
  | combineOp (c : String)
  | stringifyOp

/-- Effect of one method call on the shared instance's state.  A failing
`stringify` (only possible when `selector1` is set and `selector2` is
`null`) raises before reaching `clean()`, leaving the state unchanged. -/
def step (s : CssB) : Op → CssB
  | .elementOp v => element s v
  | .idOp v => id s v
  | .classOp v => class_ s v
  | .attrOp v => attr s v
  | .pseudoClassOp v => pseudoClass s v
  | .pseudoElementOp v => pseudoElement s v
  | .combineOp c => combine s c
  | .stringifyOp =>
    match stringify s with
    | some (_, t) => t
    | none => s

/-- The state of the shared instance after a sequence of method calls. -/
def run (ops : List Op) (s : CssB) : CssB := ops.foldl step s

/-- `selector1` and `selector2` are both `null`. -/
def NoCombined (s : CssB) : Prop := s.selector1 = none ∧ s.selector2 = none

/-- Canonical render order as worded by the spec (this definition follows
the spec's words, to be compared with the source-derived `stringify`):
the present fragment groups concatenated with no separators between
groups, in the order element type, then `#` + id, then the classes each
prefixed by `.`, then the attribute group in brackets holding the
concatenation of all attribute expressions with no separator, then the
pseudo-classes each prefixed by `:`, then `::` + pseudoElement. -/
def specRender (s : CssB) : String :=
  (if s.elementType = "" then "" else s.elementType) ++
  (if s.idName = "" then "" else "#" ++ s.idName) ++
  String.join (s.classNames.map fun c => "." ++ c) ++
  (if s.attributes = [] then "" else "[" ++ String.join s.attributes ++ "]") ++
  String.join (s.pseudoClasses.map fun c => ":" ++ c) ++
  (if s.pseudoElem = "" then "" else "::" ++ s.pseudoElem)

theorem join_nil : String.join ([] : List String) = "" := rfl

theorem join_cons (a : String) (l : List String) :
    String.join (a :: l) = a ++ String.join l := by
  apply String.ext
  simp [String.join_eq, String.data_append]

theorem jsJoin_empty_sep : ∀ l : List String, jsJoin "" l = String.join l
  | [] => rfl
  | [a] => by simp [jsJoin, join_cons, join_nil, String.append_empty]
  | a :: b :: l => by
    have ih := jsJoin_empty_sep (b :: l)
    simp [jsJoin, join_cons, ih, String.append_empty]

theorem sep_jsJoin (sep : String) :
    ∀ l : List String, l ≠ [] →
      sep ++ jsJoin sep l = String.join (l.map fun c => sep ++ c)
  | [], h => absurd rfl h
  | [a], _ => by simp [jsJoin, join_cons, join_nil, String.append_empty]
  | a :: b :: l, _ => by
    rw [show jsJoin sep (a :: b :: l) = a ++ sep ++ jsJoin sep (b :: l) from rfl]
    rw [List.map_cons, join_cons, ← sep_jsJoin sep (b :: l) (by simp)]
    simp [String.append_assoc]

theorem sepFrag_eq (sep : String) (l : List String) :
    (if l = [] then "" else sep ++ jsJoin sep l)
      = String.join (l.map fun c => sep ++ c) := by
  cases l with
  | nil => rfl
  | cons a l => rw [if_neg (by simp), sep_jsJoin sep (a :: l) (by simp)]

theorem simpleRender_eq_specRender (s : CssB) :
    simpleRender s.elementType s.idName s.classNames s.attributes
      s.pseudoClasses s.pseudoElem = specRender s := by
  unfold simpleRender specRender
  rw [sepFrag_eq "." s.classNames, sepFrag_eq ":" s.pseudoClasses,
    jsJoin_empty_sep s.attributes]

theorem stringify_of_noCombined :
    ∀ s : CssB, s.selector1 = none →
      stringify s = some (simpleRender s.elementType s.idName s.classNames
        s.attributes s.pseudoClasses s.pseudoElem, initB)
  | .mk et idn cls ats pcs pe s1 s2 cb, h => by
    simp only [selector1] at h
    subst h
    rfl

theorem step_noCombined :
    ∀ s : CssB, NoCombined s → ∀ o : Op, NoCombined (step s o)
  | .mk et idn cls ats pcs pe s1 s2 cb, h, o => by
    obtain ⟨h1, h2⟩ := h
    simp only [selector1] at h1
    simp only [selector2] at h2
    subst h1
    subst h2
    cases o with
    | elementOp v =>
      by_cases hc : et = "" <;>
        simp [step, element, hc, NoCombined, selector1, selector2]
    | idOp v => simp [step, id, NoCombined, selector1, selector2]
    | classOp v => simp [step, class_, NoCombined, selector1, selector2]
    | attrOp v => simp [step, attr, NoCombined, selector1, selector2]
    | pseudoClassOp v =>
      simp [step, pseudoClass, NoCombined, selector1, selector2]
    | pseudoElementOp v =>
      simp [step, pseudoElement, NoCombined, selector1, selector2]
    | combineOp c => simp [step, combine, NoCombined, selector1, selector2]
    | stringifyOp =>
      simp [step, stringify, clean, NoCombined, selector1, selector2, initB]

theorem run_noCombined (ops : List Op) : NoCombined (run ops initB) := by
  suffices H : ∀ s : CssB, NoCombined s → NoCombined (run ops s) from
    H initB ⟨rfl, rfl⟩
  induction ops with
  | nil => intro s hs; exact hs
  | cons o ops ih =>
    intro s hs
    exact ih (step s o) (step_noCombined s hs o)

theorem stringify_resets :
    ∀ (s : CssB) (r : String) (t : CssB), stringify s = some (r, t) → t = initB
  | .mk et idn cls ats pcs pe (some b1) (some b2) cb, r, t, h => by
    simp only [stringify] at h
    rcases hb1 : stringify b1 with _ | ⟨r1, u1⟩ <;> rw [hb1] at h
    · simp at h
    · rcases hb2 : stringify b2 with _ | ⟨r2, u2⟩ <;> rw [hb2] at h
      · simp at h
      · simp [clean] at h
        exact h.2.symm
  | .mk _ _ _ _ _ _ (some b1) none _, r, t, h => by
    simp only [stringify] at h
    rcases hb1 : stringify b1 with _ | x <;> rw [hb1] at h <;> simp at h
  | .mk et idn cls ats pcs pe none s2 cb, r, t, h => by
    simp [stringify, clean] at h
    exact h.2.symm

end CssB

/-!
## Claim theorems
-/

/-- Claim C1 (evaluation at the failing input): the spec's example
`combine(combine(element('div'), '+', element('span')), '>', element('p'))`
rendered through the code.  JS argument-evaluation order makes the calls
`element('div')`, `element('span')`, `combine(.)`, `element('p')`,
`combine(.)` all hit the shared instance; `combine` has a single
parameter, stores it in the `combinator` field (which cannot affect the
output, hence quantified here) and never assigns `selector1`/`selector2`,
so `stringify` takes the simple branch and yields `"div"` — not the
`"div + span > p"` the claim states. -/
theorem c1_combine_example_renders_div (c1 c2 : String) :
    CssB.stringify (CssB.combine (CssB.element (CssB.combine
        (CssB.element (CssB.element CssB.initB "div") "span") c1) "p") c2)
      = some ("div", CssB.initB) ∧ ("div" : String) ≠ "div + span > p" :=
  ⟨rfl, by decide⟩

/-- Claim C2 (evaluation at the failing inputs): a second call to
`element` is silently ignored (the first value wins), a second call to
`id` or `pseudoElement` silently overwrites the first value, and no call
ever raises an error — the code contains no `throw` at all, so
`DuplicateSelectorPart` is never produced. -/
theorem c2_duplicate_calls_never_fail :
    CssB.stringify (CssB.element (CssB.element CssB.initB "a") "b")
      = some ("a", CssB.initB) ∧
    CssB.stringify (CssB.id (CssB.id CssB.initB "a") "b")
      = some ("#b", CssB.initB) ∧
    CssB.stringify (CssB.pseudoElement (CssB.pseudoElement CssB.initB "a") "b")
      = some ("::b", CssB.initB) :=
  ⟨rfl, rfl, rfl⟩

/-- Claim C3: for every sequence of builder calls against the shared
instance, `stringify` succeeds via the simple branch and produces exactly
the spec's canonical concatenation order — element type, `#` + id,
classes each prefixed by `.`, the bracketed attribute group, pseudo
classes each prefixed by `:`, `::` + pseudo element — with no separators
between groups, regardless of the order of the building calls. -/
theorem c3_render_canonical_order (ops : List CssB.Op) :
    CssB.stringify (CssB.run ops CssB.initB)
      = some (CssB.specRender (CssB.run ops CssB.initB), CssB.initB) := by
  have h := CssB.run_noCombined ops
  rw [CssB.stringify_of_noCombined _ h.1, CssB.simpleRender_eq_specRender]

/-- Claim C4: for every simple selector with at least one attribute,
`stringify` emits a single bracket pair containing the concatenation of
all attribute expressions with no separator (`String.join`), never one
bracket pair per attribute. -/
theorem c4_attributes_single_bracket (s : CssB)
    (h1 : s.selector1 = none) (h2 : s.attributes ≠ []) :
    CssB.stringify s = some (
      (if s.elementType = "" then "" else s.elementType) ++
      (if s.idName = "" then "" else "#" ++ s.idName) ++
      (if s.classNames = [] then "" else "." ++ CssB.jsJoin "." s.classNames) ++
      ("[" ++ String.join s.attributes ++ "]") ++
      (if s.pseudoClasses = [] then "" else ":" ++ CssB.jsJoin ":" s.pseudoClasses) ++
      (if s.pseudoElem = "" then "" else "::" ++ s.pseudoElem),
      CssB.initB) := by
  rw [CssB.stringify_of_noCombined s h1]
  simp [CssB.simpleRender, h2, CssB.jsJoin_empty_sep]

/-- Witness for C4 at the spec's own example
`attribute('a=1').attribute('b=2')`, which renders `[a=1b=2]`. -/
theorem c4_attributes_single_bracket_witness :
    ((CssB.attr (CssB.attr CssB.initB "a=1") "b=2").selector1 = none ∧
     (CssB.attr (CssB.attr CssB.initB "a=1") "b=2").attributes ≠ []) ∧
    CssB.stringify (CssB.attr (CssB.attr CssB.initB "a=1") "b=2")
      = some ("[a=1b=2]", CssB.initB) := by
  refine ⟨⟨rfl, by decide⟩, ?_⟩
  have h := c4_attributes_single_bracket
    (CssB.attr (CssB.attr CssB.initB "a=1") "b=2") rfl (by decide)
  rw [h]
  rfl

/-- Claim C5 (counterexample): the facade is one shared mutable instance,
so interleaving another chain's `class('x')` into the chain
`element('a')` changes that chain's render output from `"a"` to
`"a.x"` — render output does not depend only on the chain's own calls. -/
theorem c5_interleaved_chains_share_state :
    (CssB.stringify (CssB.run [CssB.Op.elementOp "a", CssB.Op.classOp "x"]
        CssB.initB)).map Prod.fst = some "a.x" ∧
    (CssB.stringify (CssB.run [CssB.Op.elementOp "a"] CssB.initB)).map Prod.fst
      = some "a" ∧
    ("a.x" : String) ≠ "a" :=
  ⟨rfl, rfl, by decide⟩

/-- Claim C5 (amended): isolation holds only between chains separated by
a render: because `stringify` resets the shared instance, any chain run
after a completed render produces the same result as if it had started
from a freshly constructed builder. -/
theorem c5_render_isolates_sequential_chains (ops1 ops2 : List CssB.Op) :
    CssB.stringify (CssB.run ops2
        (CssB.step (CssB.run ops1 CssB.initB) CssB.Op.stringifyOp))
      = CssB.stringify (CssB.run ops2 CssB.initB) := by
  have h := CssB.run_noCombined ops1
  have e : CssB.step (CssB.run ops1 CssB.initB) CssB.Op.stringifyOp
      = CssB.initB := by
    simp [CssB.step, CssB.stringify_of_noCombined _ h.1]
  rw [e]

/-- Claim C6: after every successful `stringify` call the instance's
accumulated simple-selector fields are all reset to empty/unset — the
post-call state is exactly the constructor state. -/
theorem c6_render_resets_state (s : CssB) (r : String) (t : CssB)
    (h : CssB.stringify s = some (r, t)) :
    t.elementType = "" ∧ t.idName = "" ∧ t.classNames = [] ∧
    t.attributes = [] ∧ t.pseudoClasses = [] ∧ t.pseudoElem = "" ∧
    t = CssB.initB := by
  have ht : t = CssB.initB := CssB.stringify_resets s r t h
  subst ht
  exact ⟨rfl, rfl, rfl, rfl, rfl, rfl, rfl⟩

/-- Witness for C6: a concrete render whose post-call state is the reset
state. -/
theorem c6_render_resets_state_witness :
    CssB.stringify (CssB.class_ CssB.initB "c") = some (".c", CssB.initB) ∧
    (CssB.initB.elementType = "" ∧ CssB.initB.idName = "" ∧
     CssB.initB.classNames = [] ∧ CssB.initB.attributes = [] ∧
     CssB.initB.pseudoClasses = [] ∧ CssB.initB.pseudoElem = "" ∧
     CssB.initB = CssB.initB) :=
  ⟨rfl, c6_render_resets_state (CssB.class_ CssB.initB "c") ".c" CssB.initB rfl⟩

/-- Claim C7: `element('a').id('b')` and `id('b').element('a')` render
the identical string `"a#b"`. -/
theorem c7_element_id_commute :
    CssB.stringify (CssB.id (CssB.element CssB.initB "a") "b")
      = some ("a#b", CssB.initB) ∧
    CssB.stringify (CssB.element (CssB.id CssB.initB "b") "a")
      = some ("a#b", CssB.initB) :=
  ⟨rfl, rfl⟩

/-- Claim C8: `class` is append-only and insertion order is preserved in
the output, each class prefixed by `.`: appending is literal list append,
and `class('x').class('y')` renders `.x.y`. -/
theorem c8_classes_append_order :
    (∀ (s : CssB) (v : String),
      (CssB.class_ s v).classNames = s.classNames ++ [v]) ∧
    CssB.stringify (CssB.class_ (CssB.class_ CssB.initB "x") "y")
      = some (".x.y", CssB.initB) :=
  ⟨fun s v => by cases s; rfl, rfl⟩

/-- Claim C9: `selector1` and `selector2` are `null` after construction
and after every sequence of public-API calls on the shared instance, so
`stringify` always takes the simple-selector branch and every output
string is a `simpleRender` of the accumulated fields. -/
theorem c9_selector_fields_stay_null (ops : List CssB.Op) :
    CssB.initB.selector1 = none ∧ CssB.initB.selector2 = none ∧
    (CssB.run ops CssB.initB).selector1 = none ∧
    (CssB.run ops CssB.initB).selector2 = none ∧
    CssB.stringify (CssB.run ops CssB.initB)
      = some (CssB.simpleRender (CssB.run ops CssB.initB).elementType
          (CssB.run ops CssB.initB).idName
          (CssB.run ops CssB.initB).classNames
          (CssB.run ops CssB.initB).attributes
          (CssB.run ops CssB.initB).pseudoClasses
          (CssB.run ops CssB.initB).pseudoElem, CssB.initB) := by
  have h := CssB.run_noCombined ops
  exact ⟨rfl, rfl, h.1, h.2, CssB.stringify_of_noCombined _ h.1⟩
